import Mathlib

/-!
Verification of the release orchestrator `dev/release.py`.

The script is a linear sequence of shell invocations guarded by early-exit
checks and user confirmation prompts.  We embed it shallowly:

* Python strings (and the byte strings returned by `check_output`) are
  modelled as `List Char`.
* Every `check_call` invocation is recorded, as its literal argv, in a trace;
  `check_output` queries (current branch, diff, tag list) and the answers to
  `click.confirm` prompts are inputs, collected in an `Env` record.
* `sys.exit(n)` and falling off the end of the script (exit code 0) are
  modelled by the `Nat` component of the result.
* `datetime.now()` is an input (`Env.now`); `strftime "%Y-%m-%dT%H-%M-%S"`
  is modelled by `strftime` below with zero-padded decimal fields.
-/

namespace Release

/-- Python strings are modelled as lists of characters. -/
abbrev Str := List Char

/-- An executed external command, as the literal argv passed to `check_call`. -/
abbrev Cmd := List Str

/-- Coercion from Lean string literals into the character-list model. -/
def strL (s : String) : Str := s.toList

/-- The apostrophe character (used in one prompt text of the script). -/
def apos : Char := Char.ofNat 39

/-- Constant `DATABRICKS_REMOTE` of `dev/release.py` (line 7), the default
value of the `--git-remote` option. -/
def DATABRICKS_REMOTE : Str := strL "git@github.com:graphframes/graphframes.git"

/-- Constant `PUBLISH_MODES` of `dev/release.py` (lines 8-12): the dictionary
from publish targets to sbt publish tasks, as an association list in source
order. -/
def PUBLISH_MODES : List (Str × Str) :=
  [(strL "local", strL "publishLocal"),
   (strL "m2", strL "publishM2"),
   (strL "spark-package-publish", strL "spDist")]

/-- Constant `PUBLISH_DOCS_DEFAULT` of `dev/release.py` (line 13). -/
def PUBLISH_DOCS_DEFAULT : Bool := true

/-- Format string `WORKING_BRANCH` of `dev/release.py` (line 15), applied to
the release version and the formatted timestamp as in line 77. -/
def WORKING_BRANCH (release_version time : Str) : Str :=
  strL "WORKING_BRANCH_RELEASE_" ++ release_version ++ strL "_@" ++ time

/-- Format string `WORKING_DOCS_BRANCH` of `dev/release.py` (line 17), applied
as in line 78. -/
def WORKING_DOCS_BRANCH (release_version time : Str) : Str :=
  strL "zWORKING_BRANCH_DOCS_" ++ release_version ++ strL "_@" ++ time

/-- Format string `RELEASE_TAG` of `dev/release.py` (line 18), applied as in
line 80. -/
def RELEASE_TAG (release_version : Str) : Str :=
  strL "v" ++ release_version

/-- Function `verify` of `dev/release.py` (lines 25-28): returns `True`
unconditionally when not interactive, otherwise asks the user.  The user's
answer function `confirm` models `click.confirm`, mapping the prompt text to
the boolean reply. -/
def verify (prompt : Str) (interactive : Bool) (confirm : Str → Bool) : Bool :=
  if !interactive then true
  else confirm prompt

/-- Normalization of the `next-version` argument, `dev/release.py` lines
53-54: if `next_version` does not end with `"SNAPSHOT"`, the string
`"-SNAPSHOT"` is appended. -/
def normalizeNextVersion (next_version : Str) : Str :=
  if (strL "SNAPSHOT").isSuffixOf next_version then next_version
  else next_version ++ strL "-SNAPSHOT"

/-- A wall-clock timestamp as produced by `datetime.now()`, with its
microsecond resolution.  The script's `strftime` format
`"%Y-%m-%dT%H-%M-%S"` (`dev/release.py` line 47) renders only the fields
down to the second and discards the sub-second part. -/
@[ext]
structure DateTime where
  year : Nat
  month : Nat
  day : Nat
  hour : Nat
  minute : Nat
  second : Nat
  microsecond : Nat
deriving DecidableEq, Repr

/-- Truncation of a timestamp to the second granularity: the part of the
timestamp that the strftime format of line 47 renders. -/
def truncToSecond (t : DateTime) : DateTime :=
  ⟨t.year, t.month, t.day, t.hour, t.minute, t.second, 0⟩

/-- Zero-padded two-digit decimal rendering, modelling the strftime fields
`%m`, `%d`, `%H`, `%M`, `%S` (faithful for values below 100). -/
def pad2 (n : Nat) : Str :=
  [Nat.digitChar (n / 10), Nat.digitChar (n % 10)]

/-- Zero-padded four-digit decimal rendering, modelling the strftime field
`%Y` (faithful for values below 10000). -/
def pad4 (n : Nat) : Str :=
  [Nat.digitChar (n / 1000), Nat.digitChar (n / 100 % 10),
   Nat.digitChar (n / 10 % 10), Nat.digitChar (n % 10)]

/-- Model of `datetime.now().strftime("%Y-%m-%dT%H-%M-%S")` from
`dev/release.py` line 47.  As in the source format string, the microsecond
field of the timestamp is not rendered. -/
def strftime (t : DateTime) : Str :=
  pad4 t.year ++ (strL "-" ++ (pad2 t.month ++ (strL "-" ++ (pad2 t.day ++
    (strL "T" ++ (pad2 t.hour ++ (strL "-" ++ (pad2 t.minute ++
      (strL "-" ++ pad2 t.second)))))))))

/-- Field bounds satisfied by every real timestamp, under which the
fixed-width strftime rendering is faithful. -/
def validDT (t : DateTime) : Prop :=
  t.year < 10000 ∧ t.month < 100 ∧ t.day < 100 ∧ t.hour < 100 ∧
    t.minute < 100 ∧ t.second < 100 ∧ t.microsecond < 1000000

instance (t : DateTime) : Decidable (validDT t) := by
  unfold validDT; infer_instance

/-- Helper: appending `"-SNAPSHOT"` always yields a string ending in
`"SNAPSHOT"`. -/
theorem snapshot_isSuffixOf_append (s : Str) :
    (strL "SNAPSHOT").isSuffixOf (s ++ strL "-SNAPSHOT") = true := by
  rw [List.isSuffixOf_iff_suffix]
  exact List.IsSuffix.trans ⟨strL "-", by decide⟩ (List.suffix_append s (strL "-SNAPSHOT"))

/-- Helper: `Nat.digitChar` is injective below 10. -/
theorem digitChar_inj (a b : Nat) (ha : a < 10) (hb : b < 10)
    (h : Nat.digitChar a = Nat.digitChar b) : a = b := by
  interval_cases a <;> interval_cases b <;> simp_all [Nat.digitChar]

/-- Helper: `pad2` is injective below 100. -/
theorem pad2_inj (m n : Nat) (hm : m < 100) (hn : n < 100)
    (h : pad2 m = pad2 n) : m = n := by
  simp only [pad2, List.cons.injEq, and_true] at h
  obtain ⟨h1, h2⟩ := h
  have e1 : m / 10 = n / 10 := digitChar_inj _ _ (by omega) (by omega) h1
  have e2 : m % 10 = n % 10 := digitChar_inj _ _ (by omega) (by omega) h2
  omega

/-- Helper: `pad4` is injective below 10000. -/
theorem pad4_inj (m n : Nat) (hm : m < 10000) (hn : n < 10000)
    (h : pad4 m = pad4 n) : m = n := by
  simp only [pad4, List.cons.injEq, and_true] at h
  obtain ⟨h1, h2, h3, h4⟩ := h
  have e1 : m / 1000 = n / 1000 := digitChar_inj _ _ (by omega) (by omega) h1
  have e2 : m / 100 % 10 = n / 100 % 10 := digitChar_inj _ _ (by omega) (by omega) h2
  have e3 : m / 10 % 10 = n / 10 % 10 := digitChar_inj _ _ (by omega) (by omega) h3
  have e4 : m % 10 = n % 10 := digitChar_inj _ _ (by omega) (by omega) h4
  omega

/-- Helper: on valid timestamps, equal strftime renderings force equal
timestamps up to second truncation (the format has fixed-width zero-padded
fields and omits only the microsecond). -/
theorem strftime_inj (t u : DateTime) (ht : validDT t) (hu : validDT u)
    (h : strftime t = strftime u) : truncToSecond t = truncToSecond u := by
  obtain ⟨ht1, ht2, ht3, ht4, ht5, ht6, ht7⟩ := ht
  obtain ⟨hu1, hu2, hu3, hu4, hu5, hu6, hu7⟩ := hu
  unfold strftime at h
  obtain ⟨hy, h⟩ := List.append_inj h rfl
  have h := List.append_cancel_left h
  obtain ⟨hmo, h⟩ := List.append_inj h rfl
  have h := List.append_cancel_left h
  obtain ⟨hd, h⟩ := List.append_inj h rfl
  have h := List.append_cancel_left h
  obtain ⟨hh, h⟩ := List.append_inj h rfl
  have h := List.append_cancel_left h
  obtain ⟨hmi, h⟩ := List.append_inj h rfl
  have hs := List.append_cancel_left h
  ext
  · exact pad4_inj _ _ ht1 hu1 hy
  · exact pad2_inj _ _ ht2 hu2 hmo
  · exact pad2_inj _ _ ht3 hu3 hd
  · exact pad2_inj _ _ ht4 hu4 hh
  · exact pad2_inj _ _ ht5 hu5 hmi
  · exact pad2_inj _ _ ht6 hu6 hs
  · rfl

/-- Command-line inputs of `main` (`dev/release.py` lines 31-44): the two
positional arguments and the five options. -/
structure Args where
  release_version : Str
  next_version : Str
  publish_to : Str
  no_prompt : Bool
  git_remote : Str
  publish_docs : Bool
  spark_version : List Str

/-- External-world inputs consumed by a run: the clock (line 47), the
answers produced by the `check_output` queries (current branch, line 61;
working-tree diff, line 70; tag list, line 83), and the user's replies to
`click.confirm`, as a function from prompt text to answer. -/
structure Env where
  now : DateTime
  current_branch : Str
  diff_stat : Str
  existing_tags : List Str
  confirm : Str → Bool

/-- Prompt text of `dev/release.py` lines 56-58. -/
def confirmReleasePrompt (release_version next_version : Str) : Str :=
  strL "Publishing version: " ++ release_version ++
    strL "\nNext version will be: " ++ next_version ++ strL "\nContinue?"

/-- Prompt text of `dev/release.py` line 66. -/
def notMasterPrompt : Str :=
  strL "You" ++ [apos] ++ strL "re not on the master branch do you want to continue?"

/-- Prompt text of `dev/release.py` line 113. -/
def pushPrompt (git_remote : Str) : Str :=
  strL "Would you like to push local branch & version tag to remote: " ++
    git_remote ++ strL "?"

/-- Prompt text of `dev/release.py` line 120. -/
def buildDocsPrompt : Str := strL "Would you like to build release docs?"

/-- Prompt text of `dev/release.py` lines 130-131. -/
def pushDocsPrompt (git_remote : Str) : Str :=
  strL "Would you like to push docs branch to " ++ git_remote ++
    strL " and update gh-pages branch?"

/-- The `conflict_tags` value of `dev/release.py` lines 81-84: the target
tags (just the release tag) filtered to those already existing. -/
def conflictTags (a : Args) (e : Env) : List Str :=
  [RELEASE_TAG a.release_version].filter (fun t => e.existing_tags.contains t)

/-- The sbt `release` command string of `dev/release.py` line 97, with the
next version already normalized (lines 53-54). -/
def update_version (a : Args) : Str :=
  strL "release release-version " ++ a.release_version ++
    strL " next-version " ++ normalizeNextVersion a.next_version

/-- Commands of `dev/release.py` lines 94-110: create the working branch,
run the sbt release command, check out the release tag, build/publish for
each spark version, return to the original branch, fast-forward merge and
delete the working branch. -/
def buildCmds (a : Args) (e : Env) : List Cmd :=
  [[strL "git", strL "checkout", strL "-b",
      WORKING_BRANCH a.release_version (strftime e.now)],
   [strL "./build/sbt", update_version a],
   [strL "git", strL "checkout", RELEASE_TAG a.release_version]]
  ++ a.spark_version.map (fun version =>
      [strL "./build/sbt", strL "-Dspark.version=" ++ version, strL "clean",
       (PUBLISH_MODES.lookup a.publish_to).getD []])
  ++ [[strL "git", strL "checkout", e.current_branch],
      [strL "git", strL "merge", strL "--ff",
        WORKING_BRANCH a.release_version (strftime e.now)],
      [strL "git", strL "branch", strL "-d",
        WORKING_BRANCH a.release_version (strftime e.now)]]

/-- Commands of `dev/release.py` lines 113-116: the two pushes, executed only
when the push prompt is confirmed. -/
def pushCmds (a : Args) (e : Env) : List Cmd :=
  if verify (pushPrompt a.git_remote) (!a.no_prompt) e.confirm = true then
    [[strL "git", strL "push", a.git_remote, e.current_branch],
     [strL "git", strL "push", a.git_remote, RELEASE_TAG a.release_version]]
  else []

/-- Commands of `dev/release.py` lines 124-129: create the docs branch from
the release tag, build the docs, stage and commit the site. -/
def docsCmds (a : Args) (e : Env) : List Cmd :=
  [[strL "git", strL "checkout", strL "-b",
      WORKING_DOCS_BRANCH a.release_version (strftime e.now),
      RELEASE_TAG a.release_version],
   [strL "./dev/build-docs.sh"],
   [strL "git", strL "add", strL "-f", strL "docs/_site"],
   [strL "git", strL "commit", strL "-m",
      strL "Build docs for release " ++ a.release_version ++ strL "."]]

/-- Commands of `dev/release.py` lines 132-134: push the docs branch and
force-push it onto `gh-pages`, only when the docs-push prompt is
confirmed. -/
def docsPushCmds (a : Args) (e : Env) : List Cmd :=
  if verify (pushDocsPrompt a.git_remote) (!a.no_prompt) e.confirm = true then
    [[strL "git", strL "push", a.git_remote,
        WORKING_DOCS_BRANCH a.release_version (strftime e.now)],
     [strL "git", strL "push", strL "-f", a.git_remote,
        WORKING_DOCS_BRANCH a.release_version (strftime e.now) ++ strL ":gh-pages"]]
  else []

/-- Commands of `dev/release.py` lines 136-137: return to the original branch
and force-delete the docs branch. -/
def docsTailCmds (a : Args) (e : Env) : List Cmd :=
  [[strL "git", strL "checkout", e.current_branch],
   [strL "git", strL "branch", strL "-D",
      WORKING_DOCS_BRANCH a.release_version (strftime e.now)]]

/-- Function `main` of `dev/release.py` (lines 43-137), as a pure function
from the command-line arguments and the external-world inputs to the list of
`check_call` argvs executed and the process exit status.  The guards appear
in source order: unknown publish target (lines 48-51), the release
confirmation (lines 56-59), detached head (lines 62-64), the not-on-master
confirmation (lines 65-68), uncommitted changes (lines 70-75), conflicting
tags (lines 84-91), and the docs-build decision (lines 120-122). -/
def main (a : Args) (e : Env) : List Cmd × Nat :=
  if a.publish_to ∉ PUBLISH_MODES.map Prod.fst then ([], 1)
  else if verify (confirmReleasePrompt a.release_version
      (normalizeNextVersion a.next_version)) (!a.no_prompt) e.confirm = false then ([], 1)
  else if e.current_branch = strL "HEAD" then ([], 1)
  else if e.current_branch ≠ strL "master" ∧
      verify notMasterPrompt (!a.no_prompt) e.confirm = false then ([], 1)
  else if e.diff_stat ≠ [] then ([], 1)
  else if conflictTags a e ≠ [] then ([], 1)
  else if ¬ (a.publish_docs = true ∧
      verify buildDocsPrompt (!a.no_prompt) e.confirm = true) then
    (buildCmds a e ++ pushCmds a e, 0)
  else
    (buildCmds a e ++ pushCmds a e ++ docsCmds a e ++ docsPushCmds a e
      ++ docsTailCmds a e, 0)

/-- The six preconditions that must all hold for a run to get past the
early-exit guards of `main`. -/
def mainChecks (a : Args) (e : Env) : Prop :=
  a.publish_to ∈ PUBLISH_MODES.map Prod.fst ∧
  verify (confirmReleasePrompt a.release_version
    (normalizeNextVersion a.next_version)) (!a.no_prompt) e.confirm = true ∧
  e.current_branch ≠ strL "HEAD" ∧
  (e.current_branch = strL "master" ∨
    verify notMasterPrompt (!a.no_prompt) e.confirm = true) ∧
  e.diff_stat = [] ∧
  conflictTags a e = []

/-- Helper: an unknown publish target exits with status 1 and an empty
command trace. -/
theorem main_fail_publish (a : Args) (e : Env)
    (h : a.publish_to ∉ PUBLISH_MODES.map Prod.fst) : main a e = ([], 1) := by
  unfold main
  rw [if_pos h]

/-- Helper: a declined release confirmation exits with status 1 and an empty
command trace. -/
theorem main_fail_confirm (a : Args) (e : Env)
    (h : verify (confirmReleasePrompt a.release_version
      (normalizeNextVersion a.next_version)) (!a.no_prompt) e.confirm = false) :
    main a e = ([], 1) := by
  simp [main, h]

/-- Helper: a detached head exits with status 1 and an empty command
trace. -/
theorem main_fail_head (a : Args) (e : Env)
    (h : e.current_branch = strL "HEAD") : main a e = ([], 1) := by
  simp [main, h]

/-- Helper: declining the not-on-master confirmation exits with status 1 and
an empty command trace. -/
theorem main_fail_master (a : Args) (e : Env)
    (h : e.current_branch ≠ strL "master" ∧
      verify notMasterPrompt (!a.no_prompt) e.confirm = false) :
    main a e = ([], 1) := by
  simp [main, h.1, h.2]

/-- Helper: a non-empty working-tree diff exits with status 1 and an empty
command trace. -/
theorem main_fail_diff (a : Args) (e : Env) (h : e.diff_stat ≠ []) :
    main a e = ([], 1) := by
  simp [main, h]

/-- Helper: a conflicting existing tag exits with status 1 and an empty
command trace. -/
theorem main_fail_conflict (a : Args) (e : Env) (h : conflictTags a e ≠ []) :
    main a e = ([], 1) := by
  simp [main, h]

/-- Helper: when all six preconditions hold, the run executes the build
commands, then the pushes (when confirmed), then the docs commands (when
chosen), and exits with status 0. -/
theorem main_success (a : Args) (e : Env) (hc : mainChecks a e) :
    main a e = (buildCmds a e ++ pushCmds a e ++
      (if a.publish_docs = true ∧
          verify buildDocsPrompt (!a.no_prompt) e.confirm = true
       then docsCmds a e ++ docsPushCmds a e ++ docsTailCmds a e
       else []), 0) := by
  obtain ⟨h1, h2, h3, h4, h5, h6⟩ := hc
  have hg4 : ¬(e.current_branch ≠ strL "master" ∧
      verify notMasterPrompt (!a.no_prompt) e.confirm = false) := by
    rcases h4 with h | h <;> simp [h]
  unfold main
  rw [if_neg (by simp [h1]), if_neg (by simp [h2]), if_neg h3, if_neg hg4,
    if_neg (by simp [h5]), if_neg (by simp [h6])]
  split
  · next hd =>
    simp
  · next hd =>
    rw [not_not] at hd
    simp [hd, List.append_assoc]

/-- Helper: when some precondition fails, the run exits with status 1 and an
empty command trace. -/
theorem main_fail_of_not_checks (a : Args) (e : Env) (hc : ¬ mainChecks a e) :
    main a e = ([], 1) := by
  by_cases h1 : a.publish_to ∈ PUBLISH_MODES.map Prod.fst
  · by_cases h2 : verify (confirmReleasePrompt a.release_version
        (normalizeNextVersion a.next_version)) (!a.no_prompt) e.confirm = true
    · by_cases h3 : e.current_branch = strL "HEAD"
      · exact main_fail_head a e h3
      · by_cases h4 : e.current_branch = strL "master" ∨
            verify notMasterPrompt (!a.no_prompt) e.confirm = true
        · by_cases h5 : e.diff_stat = []
          · by_cases h6 : conflictTags a e = []
            · exact absurd ⟨h1, h2, h3, h4, h5, h6⟩ hc
            · exact main_fail_conflict a e h6
          · exact main_fail_diff a e h5
        · push_neg at h4
          exact main_fail_master a e ⟨h4.1, by simpa using h4.2⟩
    · exact main_fail_confirm a e (by simpa using h2)
  · exact main_fail_publish a e h1

/-- Helper: the run exits with status 0 exactly when all six preconditions
hold. -/
theorem main_exit_zero_iff (a : Args) (e : Env) :
    (main a e).2 = 0 ↔ mainChecks a e := by
  constructor
  · intro h
    by_contra hc
    rw [main_fail_of_not_checks a e hc] at h
    exact absurd h (by decide)
  · intro hc
    rw [main_success a e hc]

/-- Concrete sample arguments: a fully automated local publish with no spark
versions and docs publishing disabled. -/
def sampleArgs : Args where
  release_version := strL "1.2.3"
  next_version := strL "1.3.0"
  publish_to := strL "local"
  no_prompt := true
  git_remote := strL "origin"
  publish_docs := false
  spark_version := []

/-- Concrete sample environment: a clean master checkout with no existing
tags and a user who declines every prompt. -/
def sampleEnv : Env where
  now := ⟨2026, 10, 12, 1, 2, 3, 0⟩
  current_branch := strL "master"
  diff_stat := []
  existing_tags := []
  confirm := fun _ => false

/-- C1: counterexample — in a fully automated run (`no-prompt` set, every
precondition met, user answering nothing) the pushes of the current branch
and of the release tag to the git remote ARE executed, refuting the claim
that `no-prompt` suppresses the remote push: `verify` returns true when not
interactive, so the push prompt is auto-confirmed. -/
theorem C1_counterexample :
    sampleArgs.no_prompt = true ∧
    [strL "git", strL "push", strL "origin", strL "master"] ∈
      (main sampleArgs sampleEnv).1 ∧
    [strL "git", strL "push", strL "origin", strL "v1.2.3"] ∈
      (main sampleArgs sampleEnv).1 := by
  decide

/-- C1: amended — in a fully automated run (`no-prompt` set) the push prompt
is auto-confirmed, so every run that passes the preconditions executes the
push of the current branch and of the release tag to the git remote. -/
theorem C1_no_prompt_pushes (a : Args) (e : Env)
    (hnp : a.no_prompt = true)
    (h1 : a.publish_to ∈ PUBLISH_MODES.map Prod.fst)
    (h3 : e.current_branch ≠ strL "HEAD")
    (h5 : e.diff_stat = [])
    (h6 : conflictTags a e = []) :
    [strL "git", strL "push", a.git_remote, e.current_branch] ∈ (main a e).1 ∧
    [strL "git", strL "push", a.git_remote, RELEASE_TAG a.release_version] ∈
      (main a e).1 := by
  have hv : ∀ p, verify p (!a.no_prompt) e.confirm = true := by
    intro p; simp [verify, hnp]
  rw [main_success a e ⟨h1, hv _, h3, Or.inr (hv _), h5, h6⟩]
  have hp : pushCmds a e =
      [[strL "git", strL "push", a.git_remote, e.current_branch],
       [strL "git", strL "push", a.git_remote, RELEASE_TAG a.release_version]] := by
    simp [pushCmds, hv]
  constructor <;> simp [hp]

/-- C1: witness for the amended claim at the sample inputs. -/
theorem C1_no_prompt_pushes_witness :
    [strL "git", strL "push", sampleArgs.git_remote, sampleEnv.current_branch] ∈
      (main sampleArgs sampleEnv).1 ∧
    [strL "git", strL "push", sampleArgs.git_remote,
      RELEASE_TAG sampleArgs.release_version] ∈ (main sampleArgs sampleEnv).1 :=
  C1_no_prompt_pushes sampleArgs sampleEnv rfl (by decide) (by decide) rfl
    (by decide)

/-- C2: counterexample — `"1.0SNAPSHOT"` does not end in the `"-SNAPSHOT"`
marker that normalization appends, yet normalization returns it unchanged
instead of appending the marker: the code tests for the suffix `"SNAPSHOT"`
without the dash. -/
theorem C2_counterexample :
    (strL "-SNAPSHOT").isSuffixOf (strL "1.0SNAPSHOT") = false ∧
    normalizeNextVersion (strL "1.0SNAPSHOT") = strL "1.0SNAPSHOT" ∧
    normalizeNextVersion (strL "1.0SNAPSHOT") ≠
      strL "1.0SNAPSHOT" ++ strL "-SNAPSHOT" := by
  decide

/-- C2: amended — the suffix test uses `"SNAPSHOT"` without the dash: every
input ending in `"SNAPSHOT"` is left unchanged, and every input not ending in
`"SNAPSHOT"` gets `"-SNAPSHOT"` appended exactly once. -/
theorem C2_normalize (s : Str) :
    ((strL "SNAPSHOT").isSuffixOf s = true → normalizeNextVersion s = s) ∧
    ((strL "SNAPSHOT").isSuffixOf s = false →
      normalizeNextVersion s = s ++ strL "-SNAPSHOT") := by
  constructor <;> intro h <;> simp [normalizeNextVersion, h]

/-- C2: witness for the amended claim on concrete inputs of both kinds. -/
theorem C2_normalize_witness :
    normalizeNextVersion (strL "1.3.0") = strL "1.3.0" ++ strL "-SNAPSHOT" ∧
    normalizeNextVersion (strL "1.3.0-SNAPSHOT") = strL "1.3.0-SNAPSHOT" :=
  ⟨(C2_normalize (strL "1.3.0")).2 (by decide),
   (C2_normalize (strL "1.3.0-SNAPSHOT")).1 (by decide)⟩

/-- C3: counterexample — two valid start timestamps that differ only in the
microsecond (so lie within the same second) are different timestamps, yet
the strftime format of line 47 renders them identically, so both the
derived working-branch names and the derived docs-branch names coincide:
branch names are NOT unique across invocations with different start
timestamps. -/
theorem C3_counterexample :
    validDT ⟨2026, 10, 12, 1, 2, 3, 0⟩ ∧
    validDT ⟨2026, 10, 12, 1, 2, 3, 500000⟩ ∧
    (⟨2026, 10, 12, 1, 2, 3, 0⟩ : DateTime) ≠ ⟨2026, 10, 12, 1, 2, 3, 500000⟩ ∧
    WORKING_BRANCH (strL "1.2.3") (strftime ⟨2026, 10, 12, 1, 2, 3, 0⟩) =
      WORKING_BRANCH (strL "1.2.3") (strftime ⟨2026, 10, 12, 1, 2, 3, 500000⟩) ∧
    WORKING_DOCS_BRANCH (strL "1.2.3") (strftime ⟨2026, 10, 12, 1, 2, 3, 0⟩) =
      WORKING_DOCS_BRANCH (strL "1.2.3") (strftime ⟨2026, 10, 12, 1, 2, 3, 500000⟩) := by
  decide

/-- C3: amended — for one release identifier and two valid start timestamps
that differ at the second granularity (in some field the strftime format
renders, not merely in the sub-second part), the derived working-branch
names differ and the derived docs-branch names differ: the rendered part of
the timestamp is embedded in each name through the injective fixed-width
strftime rendering. -/
theorem C3_branch_names_unique (rv : Str) (t u : DateTime)
    (ht : validDT t) (hu : validDT u)
    (hne : truncToSecond t ≠ truncToSecond u) :
    WORKING_BRANCH rv (strftime t) ≠ WORKING_BRANCH rv (strftime u) ∧
    WORKING_DOCS_BRANCH rv (strftime t) ≠ WORKING_DOCS_BRANCH rv (strftime u) := by
  have hs : strftime t ≠ strftime u := fun h => hne (strftime_inj t u ht hu h)
  constructor <;> intro h
  · simp only [WORKING_BRANCH, List.append_assoc] at h
    exact hs (List.append_cancel_left (List.append_cancel_left
      (List.append_cancel_left h)))
  · simp only [WORKING_DOCS_BRANCH, List.append_assoc] at h
    exact hs (List.append_cancel_left (List.append_cancel_left
      (List.append_cancel_left h)))

/-- C3: witness at two concrete timestamps one second apart. -/
theorem C3_branch_names_unique_witness :
    WORKING_BRANCH (strL "1.2.3") (strftime ⟨2026, 10, 12, 1, 2, 3, 0⟩) ≠
      WORKING_BRANCH (strL "1.2.3") (strftime ⟨2026, 10, 12, 1, 2, 4, 0⟩) ∧
    WORKING_DOCS_BRANCH (strL "1.2.3") (strftime ⟨2026, 10, 12, 1, 2, 3, 0⟩) ≠
      WORKING_DOCS_BRANCH (strL "1.2.3") (strftime ⟨2026, 10, 12, 1, 2, 4, 0⟩) :=
  C3_branch_names_unique (strL "1.2.3") _ _ (by decide) (by decide) (by decide)

/-- C4: with a publish-to value outside the publish-mode enumeration the run
exits with status 1 and an empty command trace, so no git command (state
changing or otherwise) is executed. -/
theorem C4_unknown_publish_target (a : Args) (e : Env)
    (h : a.publish_to ∉ PUBLISH_MODES.map Prod.fst) :
    main a e = ([], 1) :=
  main_fail_publish a e h

/-- C4: witness at a concrete unknown publish target. -/
theorem C4_unknown_publish_target_witness :
    main { sampleArgs with publish_to := strL "nexus" } sampleEnv = ([], 1) :=
  C4_unknown_publish_target _ sampleEnv (by decide)

/-- C5: with a non-empty working-tree diff the run exits with status 1 and an
empty command trace, so in particular no branch is created. -/
theorem C5_uncommitted_changes (a : Args) (e : Env) (h : e.diff_stat ≠ []) :
    main a e = ([], 1) :=
  main_fail_diff a e h

/-- C5: witness at a concrete non-empty diff. -/
theorem C5_uncommitted_changes_witness :
    main sampleArgs { sampleEnv with diff_stat := strL " f | 1 +" } = ([], 1) :=
  C5_uncommitted_changes sampleArgs _ (by decide)

/-- C6: when the computed release tag already exists among the known tags the
run exits with status 1 and an empty command trace, so before any branch is
created. -/
theorem C6_existing_tag (a : Args) (e : Env)
    (h : RELEASE_TAG a.release_version ∈ e.existing_tags) :
    main a e = ([], 1) := by
  apply main_fail_conflict
  simp [conflictTags, h]

/-- C6: witness at a concrete conflicting tag. -/
theorem C6_existing_tag_witness :
    main sampleArgs { sampleEnv with existing_tags := [strL "v1.2.3"] } =
      ([], 1) :=
  C6_existing_tag sampleArgs _ (by decide)

/-- C7: the current-branch query answering `"HEAD"` (detached state) makes
the run exit with status 1; on a named branch other than `master` in an
interactive run, declining the continue prompt makes the run exit with
status 1. -/
theorem C7_branch_check (a : Args) (e : Env) :
    (e.current_branch = strL "HEAD" → main a e = ([], 1)) ∧
    (a.no_prompt = false → e.current_branch ≠ strL "master" →
      e.confirm notMasterPrompt = false → main a e = ([], 1)) := by
  constructor
  · intro h
    exact main_fail_head a e h
  · intro hnp hm hc
    exact main_fail_master a e ⟨hm, by simp [verify, hnp, hc]⟩

/-- C7: witness for both parts at concrete inputs. -/
theorem C7_branch_check_witness :
    main sampleArgs { sampleEnv with current_branch := strL "HEAD" } = ([], 1) ∧
    main { sampleArgs with no_prompt := false }
      { sampleEnv with current_branch := strL "dev" } = ([], 1) :=
  ⟨(C7_branch_check sampleArgs _).1 rfl,
   (C7_branch_check _ _).2 rfl (by decide) rfl⟩

/-- C8: the exit status is 0 exactly when the six mandatory checks pass
(known publish target, confirmed release prompt, named HEAD, master branch or
confirmed continue prompt, clean tree, no tag conflict) and 1 exactly
otherwise.  The docs-build confirmation is absent from `mainChecks`:
declining it still yields exit status 0, while declining a mandatory
confirmation falsifies `mainChecks` and yields 1. -/
theorem C8_exit_codes (a : Args) (e : Env) :
    ((main a e).2 = 0 ↔ mainChecks a e) ∧
    ((main a e).2 = 1 ↔ ¬ mainChecks a e) := by
  refine ⟨main_exit_zero_iff a e, ?_⟩
  by_cases hc : mainChecks a e
  · rw [main_success a e hc]
    simp [hc]
  · rw [main_fail_of_not_checks a e hc]
    simp [hc]

/-- C9: non-interactive verification answers true whatever the prompt and
whatever the user answer function; consequently a no-prompt run needs no
confirmed prompt anywhere: one that passes the prompt-free preconditions
exits 0, in particular on a named branch other than master. -/
theorem C9_no_prompt_auto_confirm :
    (∀ (prompt : Str) (confirm : Str → Bool),
      verify prompt false confirm = true) ∧
    (∀ (a : Args) (e : Env), a.no_prompt = true →
      a.publish_to ∈ PUBLISH_MODES.map Prod.fst →
      e.current_branch ≠ strL "HEAD" →
      e.diff_stat = [] →
      conflictTags a e = [] →
      (main a e).2 = 0) := by
  constructor
  · intro prompt confirm
    rfl
  · intro a e hnp h1 h3 h5 h6
    have hv : ∀ p, verify p (!a.no_prompt) e.confirm = true := by
      intro p; simp [verify, hnp]
    rw [main_success a e ⟨h1, hv _, h3, Or.inr (hv _), h5, h6⟩]

/-- C9: witness, with the run placed on the non-master branch `dev`. -/
theorem C9_no_prompt_auto_confirm_witness :
    verify (strL "Continue?") false (fun _ => false) = true ∧
    (main sampleArgs { sampleEnv with current_branch := strL "dev" }).2 = 0 :=
  ⟨C9_no_prompt_auto_confirm.1 (strL "Continue?") (fun _ => false),
   C9_no_prompt_auto_confirm.2 sampleArgs _ rfl (by decide) (by decide) rfl
     (by decide)⟩

/-- C10: normalization of the next version is idempotent: its output always
ends in `"SNAPSHOT"`, so a second application changes nothing. -/
theorem C10_normalize_idempotent (s : Str) :
    normalizeNextVersion (normalizeNextVersion s) = normalizeNextVersion s := by
  by_cases h : (strL "SNAPSHOT").isSuffixOf s = true
  · simp [normalizeNextVersion, h]
  · have h' : (strL "SNAPSHOT").isSuffixOf s = false := by
      rwa [Bool.not_eq_true] at h
    simp [normalizeNextVersion, h', snapshot_isSuffixOf_append]

end Release
